import Mathlib

/-!
Verification development for the backoffice-go-service repository.

The definitions below are a shallow embedding of the Go source:
  - internal/app/models (User entity, in internal/app/server.go),
  - internal/services/user_service.go and auth_service.go,
  - internal/pkg/database (drivers, factory, manager),
  - internal/pkg/utils/jwt.go,
  - internal/app/controllers (auth and user controllers),
  - internal/pkg/logger/file_logger.go.
Database tables are modelled as Lean lists in storage order; SQL queries
without an ORDER BY clause return rows in storage order.  Fallible Go code
becomes Except or Option, and the external collaborators (HMAC signing,
bcrypt hashing, the SQL pool) are modelled abstractly at the contract level
stated in the repository documentation.
-/

namespace Backoffice

/-- The models.User entity (internal/app/server.go, package models).
UUIDs are modelled as Nat identifiers and time.Time as Nat timestamps. -/
structure User where
  id : Nat
  email : String
  username : String
  password : String
  firstName : String
  lastName : String
  role : String
  active : Bool
  createdAt : Nat
  updatedAt : Nat
deriving DecidableEq, Repr

/-- The constant models.RoleUser (value "user"). -/
def RoleUser : String := "user"

/-- Setting user.Password to the empty string, as every service method does
before returning a user. -/
def stripPassword (u : User) : User :=
  { u with password := "" }

/-- Insert a user into a list that is sorted by createdAt descending,
keeping it sorted.  Helper for the ORDER BY created_at DESC clause. -/
def insertByCreatedAtDesc (u : User) : List User → List User
  | [] => [u]
  | v :: vs =>
    if u.createdAt < v.createdAt then v :: insertByCreatedAtDesc u vs
    else u :: v :: vs

/-- The effect of the SQL clause ORDER BY created_at DESC on a stored table:
sort the rows by creation time, newest first. -/
def orderByCreatedAtDesc (table : List User) : List User :=
  table.foldr insertByCreatedAtDesc []

/-- ListUsers, GORM branch (user_service.go):
db.Limit(limit).Offset(offset).Find(andusers) issues
SELECT * FROM users LIMIT limit OFFSET offset with no ORDER BY clause,
so rows come back in storage order; the loop after the branch then clears
every password. -/
def listUsersGormPath (table : List User) (lim off : Nat) : List User :=
  ((table.drop off).take lim).map stripPassword

/-- ListUsers, raw-SQL branch (user_service.go):
SELECT ... FROM users ORDER BY created_at DESC LIMIT $1 OFFSET $2, with
passwords cleared while scanning (and again by the shared loop). -/
def listUsersRawPath (table : List User) (lim off : Nat) : List User :=
  (((orderByCreatedAtDesc table).drop off).take lim).map stripPassword

/-- GetUser, GORM branch (user_service.go):
db.Where("id = ?", userID).First(anduser); absence gives the error
"user not found", success strips the password. -/
def getUserGormPath (table : List User) (id : Nat) : Except String User :=
  match table.find? (fun u => u.id == id) with
  | none => Except.error "user not found"
  | some u => Except.ok (stripPassword u)

/-- GetUser, raw-SQL branch (user_service.go):
SELECT ... FROM users WHERE id = $1 via QueryRowContext; sql.ErrNoRows gives
the error "user not found", success strips the password. -/
def getUserRawPath (table : List User) (id : Nat) : Except String User :=
  match table.find? (fun u => u.id == id) with
  | none => Except.error "user not found"
  | some u => Except.ok (stripPassword u)

/-- DeleteUser, GORM branch (user_service.go):
db.Delete(andmodels.User, userID) deletes the rows whose id matches
(models.User has no gorm.DeletedAt field, so this is a hard delete). -/
def deleteUserGormPath (table : List User) (id : Nat) : List User :=
  table.filter (fun u => u.id != id)

/-- DeleteUser, raw-SQL branch (user_service.go):
DELETE FROM users WHERE id = $1. -/
def deleteUserRawPath (table : List User) (id : Nat) : List User :=
  table.filter (fun u => u.id != id)

/-- Modelled from the spec: utils.HashPassword (internal/pkg/utils/hash.go is
not among the provided sources).  Spec section 6 describes it as "a
password-hashing primitive (hash + constant-time verify)"; the model tags the
password so that verification succeeds exactly for the hashed password. -/
def hashPasswordModel (p : String) : String :=
  "bcrypt-hash:" ++ p

/-- Modelled from the spec: utils.CheckPasswordHash (internal/pkg/utils/hash.go
is not among the provided sources), the constant-time verify half of the
password-hashing primitive of spec section 6. -/
def checkPasswordHashModel (p h : String) : Bool :=
  h == "bcrypt-hash:" ++ p

/-- The fields CreateUser reads out of its map-typed request; a missing key
yields the empty string via the ignored-ok type assertion. -/
structure CreateUserReq where
  email : String
  username : String
  firstName : String
  lastName : String
  password : String
deriving DecidableEq, Repr

/-- The in-memory models.User value CreateUser builds before inserting:
fresh id, role user, active, and zero-valued timestamps (the Go code never
assigns CreatedAt or UpdatedAt on this struct). -/
def builtCreateUser (req : CreateUserReq) (freshId : Nat) : User :=
  { id := freshId, email := req.email, username := req.username,
    password := (if req.password == "" then "" else hashPasswordModel req.password),
    firstName := req.firstName, lastName := req.lastName,
    role := RoleUser, active := true, createdAt := 0, updatedAt := 0 }

/-- CreateUser, GORM branch (user_service.go): db.Create(anduser) inserts the
row and back-fills CreatedAt and UpdatedAt on the struct with the current
time (GORM convention tracking for those field names), so the user returned
to the caller carries the insertion timestamps.  Empty email is rejected
before the branch with "email is required".  Returns the new table and the
returned user. -/
def createUserGormPath (table : List User) (req : CreateUserReq)
    (freshId now : Nat) : Except String (List User × User) :=
  if req.email == "" then Except.error "email is required"
  else
    let user := builtCreateUser req freshId
    let stored := { user with createdAt := now, updatedAt := now }
    Except.ok (table ++ [stored], stripPassword stored)

/-- CreateUser, raw-SQL branch (user_service.go): INSERT ... VALUES
($1, ..., NOW(), NOW()); the database sets the timestamps, but the in-memory
struct returned to the caller keeps its zero-valued CreatedAt and UpdatedAt.
Empty email is rejected before the branch with "email is required". -/
def createUserRawPath (table : List User) (req : CreateUserReq)
    (freshId now : Nat) : Except String (List User × User) :=
  if req.email == "" then Except.error "email is required"
  else
    let user := builtCreateUser req freshId
    let stored := { user with createdAt := now, updatedAt := now }
    Except.ok (table ++ [stored], stripPassword user)

/-- The string fields UpdateUser reads out of its map-typed request; an
absent key, a non-string value or an empty string all leave the
corresponding user field unchanged, which the empty string models. -/
structure UpdateUserReq where
  email : String
  username : String
  firstName : String
  lastName : String
  password : String
deriving DecidableEq, Repr

/-- The field updates UpdateUser applies to the user fetched by GetUser:
each of email, username, first_name and last_name is overwritten when the
request carries a non-empty value, and a non-empty password is hashed and
stored; every other field is untouched. -/
def applyUpdateFields (u : User) (req : UpdateUserReq) : User :=
  { u with
    email := if req.email != "" then req.email else u.email,
    username := if req.username != "" then req.username else u.username,
    firstName := if req.firstName != "" then req.firstName else u.firstName,
    lastName := if req.lastName != "" then req.lastName else u.lastName,
    password := if req.password != "" then hashPasswordModel req.password
      else u.password }

/-- The effect of the raw-SQL UPDATE statement of UpdateUser on one stored
row matching the id: only the six listed columns are written — email,
username, first_name, last_name, password and updated_at = NOW() — while
role, active and created_at keep their stored values. -/
def rawUpdateRow (updated : User) (now : Nat) (v : User) : User :=
  { v with
    email := updated.email,
    username := updated.username,
    firstName := updated.firstName,
    lastName := updated.lastName,
    password := updated.password,
    updatedAt := now }

/-- UpdateUser, GORM branch (user_service.go): fetch through GetUser (which
strips the password), apply the request fields, then db.Save the struct,
which updates the matching row with every struct field and back-fills
UpdatedAt with the update time on the struct (GORM convention tracking for
that field name); the returned user is the saved struct with the password
cleared.  A failing fetch propagates its error. -/
def updateUserGormPath (table : List User) (id : Nat) (req : UpdateUserReq)
    (now : Nat) : Except String (List User × User) :=
  match getUserGormPath table id with
  | Except.error e => Except.error e
  | Except.ok fetched =>
    let updated := applyUpdateFields fetched req
    let saved := { updated with updatedAt := now }
    Except.ok (table.map (fun v => if v.id == id then saved else v),
      stripPassword saved)

/-- UpdateUser, raw-SQL branch (user_service.go): fetch through GetUser
(which strips the password), apply the request fields, then UPDATE users
SET email, username, first_name, last_name, password, updated_at = NOW()
WHERE id = $6; the in-memory struct returned to the caller keeps its stale
UpdatedAt (only the database row gets NOW()), with the password cleared.
A failing fetch propagates its error. -/
def updateUserRawPath (table : List User) (id : Nat) (req : UpdateUserReq)
    (now : Nat) : Except String (List User × User) :=
  match getUserRawPath table id with
  | Except.error e => Except.error e
  | Except.ok fetched =>
    let updated := applyUpdateFields fetched req
    Except.ok
      (table.map (fun v => if v.id == id then rawUpdateRow updated now v else v),
        stripPassword updated)

/-! ## Database driver layer (internal/pkg/database) -/

/-- DriverType tags (drivers.go). -/
inductive DriverType where
  | postgresql
  | mysql
  | mongodb
  | sqlite
deriving DecidableEq, Repr

/-- PostgresConfig (postgres driver file).  time.Duration values are
modelled in nanoseconds, matching the Go representation. -/
structure PostgresConfig where
  host : String
  port : String
  user : String
  password : String
  dbName : String
  sslMode : String
  maxOpenConns : Nat
  maxIdleConns : Nat
  connMaxLifetime : Nat
  connMaxIdleTime : Nat
  useGorm : Bool
deriving DecidableEq, Repr

/-- MySQLConfig (mysql driver file). -/
structure MySQLConfig where
  host : String
  port : String
  user : String
  password : String
  dbName : String
  charset : String
  parseTime : Bool
  loc : String
  maxOpenConns : Nat
  maxIdleConns : Nat
  connMaxLifetime : Nat
  connMaxIdleTime : Nat
  useGorm : Bool
deriving DecidableEq, Repr

/-- One nanosecond-count minute, the unit of the Go constant time.Minute. -/
def timeMinute : Nat := 60000000000

/-- Config normalization performed by NewPostgresDriver: empty SSL mode
defaults to disable, zero pool numbers default to 25 / 5 / 5 min / 10 min. -/
def normalizePostgresConfig (cfg : PostgresConfig) : PostgresConfig :=
  { cfg with
    sslMode := if cfg.sslMode == "" then "disable" else cfg.sslMode,
    maxOpenConns := if cfg.maxOpenConns == 0 then 25 else cfg.maxOpenConns,
    maxIdleConns := if cfg.maxIdleConns == 0 then 5 else cfg.maxIdleConns,
    connMaxLifetime :=
      if cfg.connMaxLifetime == 0 then 5 * timeMinute else cfg.connMaxLifetime,
    connMaxIdleTime :=
      if cfg.connMaxIdleTime == 0 then 10 * timeMinute else cfg.connMaxIdleTime }

/-- Config normalization performed by NewMySQLDriver: empty charset defaults
to utf8mb4, Loc defaults to Local when ParseTime is set, zero pool numbers
default to 25 / 5 / 5 min / 10 min. -/
def normalizeMySQLConfig (cfg : MySQLConfig) : MySQLConfig :=
  { cfg with
    charset := if cfg.charset == "" then "utf8mb4" else cfg.charset,
    loc := if cfg.parseTime && cfg.loc == "" then "Local" else cfg.loc,
    maxOpenConns := if cfg.maxOpenConns == 0 then 25 else cfg.maxOpenConns,
    maxIdleConns := if cfg.maxIdleConns == 0 then 5 else cfg.maxIdleConns,
    connMaxLifetime :=
      if cfg.connMaxLifetime == 0 then 5 * timeMinute else cfg.connMaxLifetime,
    connMaxIdleTime :=
      if cfg.connMaxIdleTime == 0 then 10 * timeMinute else cfg.connMaxIdleTime }

/-- The Postgres DSN built at the top of PostgresDriver.Connect. -/
def postgresDSN (cfg : PostgresConfig) : String :=
  "host=" ++ cfg.host ++ " port=" ++ cfg.port ++ " user=" ++ cfg.user ++
    " password=" ++ cfg.password ++ " dbname=" ++ cfg.dbName ++
    " sslmode=" ++ cfg.sslMode

/-- The MySQL DSN built at the top of MySQLDriver.Connect, including the
conditional parseTime and loc suffixes. -/
def mysqlDSN (cfg : MySQLConfig) : String :=
  let dsn := cfg.user ++ ":" ++ cfg.password ++ "@tcp(" ++ cfg.host ++ ":" ++
    cfg.port ++ ")/" ++ cfg.dbName ++ "?charset=" ++ cfg.charset
  if cfg.parseTime then
    dsn ++ "&parseTime=True" ++ (if cfg.loc != "" then "&loc=" ++ cfg.loc else "")
  else dsn

/-- An open sql.DB pool: the DSN it was opened with and the four pool-tuning
values applied right after sql.Open. -/
structure SQLPool where
  dsn : String
  maxOpenConns : Nat
  maxIdleConns : Nat
  connMaxLifetime : Nat
  connMaxIdleTime : Nat
deriving DecidableEq, Repr

/-- A gorm.DB handle; gorm.Open with Conn set wraps the existing pool and
never opens a second one. -/
structure GormDB where
  conn : SQLPool
deriving DecidableEq, Repr

/-- Outcomes of the effectful steps inside Connect and Ping, supplied by the
environment (the database server): whether sql.Open, the connect-time
PingContext, gorm.Open, and any later PingContext succeed. -/
structure ConnectEnv where
  openOk : Bool
  pingOk : Bool
  gormOk : Bool
  pingLaterOk : Bool
deriving DecidableEq, Repr

/-- PostgresDriver state: the config plus the two nilable handles. -/
structure PostgresDriver where
  config : PostgresConfig
  db : Option SQLPool
  gormDB : Option GormDB
deriving DecidableEq, Repr

/-- MySQLDriver state: the config plus the two nilable handles. -/
structure MySQLDriver where
  config : MySQLConfig
  db : Option SQLPool
  gormDB : Option GormDB
deriving DecidableEq, Repr

/-- NewPostgresDriver: normalize the config and return an unconnected
driver (both handles nil). -/
def newPostgresDriver (cfg : PostgresConfig) : PostgresDriver :=
  { config := normalizePostgresConfig cfg, db := none, gormDB := none }

/-- NewMySQLDriver: normalize the config and return an unconnected driver. -/
def newMySQLDriver (cfg : MySQLConfig) : MySQLDriver :=
  { config := normalizeMySQLConfig cfg, db := none, gormDB := none }

/-- PostgresDriver.Connect: build the DSN, sql.Open (on failure the handle
stays nil and a wrapped error is returned), apply the pool settings, ping
once (on failure the already-assigned pool handle is kept), and initialize
GORM only when UseGorm is set (on failure the pool handle is kept).  Returns
the Go error result together with the driver state after the call. -/
def PostgresDriver.connect (d : PostgresDriver) (env : ConnectEnv) :
    Except String Unit × PostgresDriver :=
  if !env.openOk then
    (Except.error "failed to open postgres connection", { d with db := none })
  else
    let pool : SQLPool :=
      { dsn := postgresDSN d.config, maxOpenConns := d.config.maxOpenConns,
        maxIdleConns := d.config.maxIdleConns,
        connMaxLifetime := d.config.connMaxLifetime,
        connMaxIdleTime := d.config.connMaxIdleTime }
    let d := { d with db := some pool }
    if !env.pingOk then
      (Except.error "failed to ping postgres", d)
    else if d.config.useGorm then
      if env.gormOk then
        (Except.ok (), { d with gormDB := some { conn := pool } })
      else
        (Except.error "failed to initialize gorm", d)
    else
      (Except.ok (), d)

/-- MySQLDriver.Connect, with the same step structure over the MySQL DSN. -/
def MySQLDriver.connect (d : MySQLDriver) (env : ConnectEnv) :
    Except String Unit × MySQLDriver :=
  if !env.openOk then
    (Except.error "failed to open mysql connection", { d with db := none })
  else
    let pool : SQLPool :=
      { dsn := mysqlDSN d.config, maxOpenConns := d.config.maxOpenConns,
        maxIdleConns := d.config.maxIdleConns,
        connMaxLifetime := d.config.connMaxLifetime,
        connMaxIdleTime := d.config.connMaxIdleTime }
    let d := { d with db := some pool }
    if !env.pingOk then
      (Except.error "failed to ping mysql", d)
    else if d.config.useGorm then
      if env.gormOk then
        (Except.ok (), { d with gormDB := some { conn := pool } })
      else
        (Except.error "failed to initialize gorm", d)
    else
      (Except.ok (), d)

/-- PostgresDriver.Ping: a nil handle gives the static error string, a
non-nil handle forwards PingContext to the database (environment outcome). -/
def PostgresDriver.ping (d : PostgresDriver) (pingNowOk : Bool) :
    Except String Unit :=
  match d.db with
  | none => Except.error "database connection is not established"
  | some _ => if pingNowOk then Except.ok () else Except.error "ping failed"

/-- MySQLDriver.Ping, identical structure. -/
def MySQLDriver.ping (d : MySQLDriver) (pingNowOk : Bool) :
    Except String Unit :=
  match d.db with
  | none => Except.error "database connection is not established"
  | some _ => if pingNowOk then Except.ok () else Except.error "ping failed"

/-- PostgresDriver.GetSQLDB returns the native handle field. -/
def PostgresDriver.getSQLDB (d : PostgresDriver) : Option SQLPool :=
  d.db

/-- PostgresDriver.GetGormDB returns the ORM handle field. -/
def PostgresDriver.getGormDB (d : PostgresDriver) : Option GormDB :=
  d.gormDB

/-- MySQLDriver.GetSQLDB returns the native handle field. -/
def MySQLDriver.getSQLDB (d : MySQLDriver) : Option SQLPool :=
  d.db

/-- MySQLDriver.GetGormDB returns the ORM handle field. -/
def MySQLDriver.getGormDB (d : MySQLDriver) : Option GormDB :=
  d.gormDB

/-! ## Manager (factory file, internal/pkg/database) -/

/-- Behaviour of one registered driver as the Manager observes it: the
outcomes of its Connect, Close and Health calls.  Error strings are the
wrapped driver errors. -/
structure DriverSpec where
  connectOk : Bool
  connectErrMsg : String
  closeOk : Bool
  closeErrMsg : String
  healthErr : Option String
deriving DecidableEq, Repr

/-- Manager.ConnectAll: iterate the registered drivers and connect each; the
first failure returns immediately with the wrapped error
"failed to connect driver name: err", leaving that driver and every later
driver unconnected, while every earlier driver stays connected.  The Go map
iteration order is modelled by the list order.  Result: the returned error
(none on success) and the per-driver connected flag afterwards. -/
def connectAllGo : List (String × DriverSpec) → Option String × List (String × Bool)
  | [] => (none, [])
  | (n, d) :: rest =>
    if d.connectOk then
      let res := connectAllGo rest
      (res.1, (n, true) :: res.2)
    else
      (some ("failed to connect driver " ++ n ++ ": " ++ d.connectErrMsg),
        (n, false) :: rest.map (fun p => (p.1, false)))

/-- The errs slice Manager.CloseAll accumulates: one wrapped entry
"failed to close driver name: err" per driver whose Close failed, in
iteration order; every driver is attempted. -/
def closeAllErrors (ds : List (String × DriverSpec)) : List String :=
  ds.filterMap (fun p =>
    if p.2.closeOk then none
    else some ("failed to close driver " ++ p.1 ++ ": " ++ p.2.closeErrMsg))

/-- Manager.CloseAll: close every driver, then return nil when no close
failed and a single combined "errors closing drivers" error otherwise. -/
def closeAllGo (ds : List (String × DriverSpec)) : Option String :=
  let errs := closeAllErrors ds
  if errs.isEmpty then none
  else some ("errors closing drivers: " ++ String.intercalate ", " errs)

/-- Manager.Health: a results map with one entry per registered driver,
nil (none) meaning healthy. -/
def managerHealth (ds : List (String × DriverSpec)) : List (String × Option String) :=
  ds.map (fun p => (p.1, p.2.healthErr))

/-- Go map indexing with a missing key returns the zero value, which for an
error-valued map is nil; this models results[name] on Manager.Health output. -/
def healthMapIndex (results : List (String × Option String)) (name : String) :
    Option String :=
  match results.lookup name with
  | none => none
  | some e => e

/-- UserService.Health: s.db.Health(ctx)["primary"]. -/
def userServiceHealth (ds : List (String × DriverSpec)) : Option String :=
  healthMapIndex (managerHealth ds) "primary"

/-- AuthService.Health: s.db.Health(ctx)["primary"]. -/
def authServiceHealth (ds : List (String × DriverSpec)) : Option String :=
  healthMapIndex (managerHealth ds) "primary"

/-! ## User controller pagination (UserController.ListUsers) -/

/-- UserController.ListUsers query handling: DefaultQuery("page", "1") and
DefaultQuery("limit", "10") followed by strconv.Atoi (so a missing parameter
parses as 1 resp. 10), then the clamps page < 1 to 1, limit < 1 to 10,
limit > 100 to 100, and offset := (page - 1) * limit.  The inputs are the
Atoi results of the supplied parameters (none when the parameter is absent);
the result is the page, limit and offset handed to the service. -/
def listUsersParams (pageQ limitQ : Option Int) : Int × Int × Int :=
  let page0 := pageQ.getD 1
  let limit0 := limitQ.getD 10
  let page1 := if page0 < 1 then 1 else page0
  let limit1 := if limit0 < 1 then 10 else limit0
  let limit2 := if limit1 > 100 then 100 else limit1
  (page1, limit2, (page1 - 1) * limit2)

/-! ## JWT (internal/pkg/utils/jwt.go) and the auth service -/

/-- The claim set AuthService.generateToken places in a token.  Times are
Unix seconds as Int. -/
structure JWTClaims where
  userId : String
  email : String
  role : String
  exp : Int
  iat : Int
  iss : String
deriving DecidableEq, Repr

/-- An HS256-signed token, modelled at the HMAC contract level: the token
carries its claims and the signing key, and signature verification against a
candidate key succeeds exactly when the keys coincide. -/
structure SignedToken where
  claims : JWTClaims
  key : String
deriving DecidableEq, Repr

/-- The package-level variable jwtKey in internal/pkg/utils/jwt.go. -/
def jwtKey : String := "supersecretkey"

/-- HMAC verification plus the registered-claims validation performed by
jwt.ParseWithClaims: the signature checks out only under the signing key,
and an expired token (exp not after now) is invalid. -/
def verifyWithKey (key : String) (now : Int) (t : SignedToken) :
    Except String JWTClaims :=
  if t.key == key then
    if now < t.claims.exp then Except.ok t.claims
    else Except.error "invalid token"
  else Except.error "invalid token"

/-- utils.VerifyToken: parse and validate the token against the hard-coded
package-level jwtKey. -/
def verifyTokenUtils (now : Int) (t : SignedToken) : Except String JWTClaims :=
  verifyWithKey jwtKey now t

/-- JWTConfig (config package): secret, expiration (seconds), issuer. -/
structure JWTConfigM where
  secret : String
  expiration : Int
  issuer : String
deriving DecidableEq, Repr

/-- AuthService.generateToken: claims user_id / email / role / exp = now +
expiration / iat = now / iss, signed HS256 with the configured secret. -/
def generateToken (cfg : JWTConfigM) (userId email role : String) (now : Int) :
    SignedToken :=
  { claims :=
      { userId := userId, email := email, role := role,
        exp := now + cfg.expiration, iat := now, iss := cfg.issuer },
    key := cfg.secret }

/-- AuthService.RefreshToken: verify the incoming token with
utils.VerifyToken (hence against jwtKey, not the configured secret), read
email / user_id / role from the claims, and issue a fresh token with
generateToken. -/
def refreshTokenService (cfg : JWTConfigM) (t : SignedToken) (now : Int) :
    Except String SignedToken :=
  match verifyTokenUtils now t with
  | Except.error _ => Except.error "invalid refresh token"
  | Except.ok claims =>
    Except.ok (generateToken cfg claims.userId claims.email claims.role now)

/-- Whether an Except result is a success, mirroring err == nil in Go. -/
def isOkE {α : Type} (e : Except String α) : Bool :=
  match e with
  | Except.ok _ => true
  | Except.error _ => false

/-- The RegisterRequest DTO bound by AuthController.Register (binding tags:
email required and well-formed, password required with min length 6,
first_name, last_name, username required). -/
structure RegisterRequest where
  email : String
  password : String
  firstName : String
  lastName : String
  username : String
deriving DecidableEq, Repr

/-- The string fields AuthService.Register reads out of a map-typed request
body (a missing key yields the empty string). -/
structure RegisterMap where
  email : String
  password : String
  firstName : String
  lastName : String
  username : String
deriving DecidableEq, Repr

/-- The dynamic value handed to AuthService.Register through its
req : interface argument at the two call sites: the auth controller passes a
pointer to its RegisterRequest struct, while a map-shaped body would arrive
as a map. -/
inductive RegisterArg where
  | mapArg (m : RegisterMap)
  | structPtrArg (r : RegisterRequest)
deriving DecidableEq, Repr

/-- AuthService.Register: the type assertion req.(map) fails for anything
that is not a map (in particular for the struct pointer the controller
passes), giving "invalid request format"; with a map, empty email or
password gives "email and password are required"; otherwise a user with a
fresh id, hashed password, role user, active true and current timestamps is
inserted, and the returned copy has the password stripped.  Returns the new
table and the returned user. -/
def authRegister (table : List User) (arg : RegisterArg) (freshId now : Nat) :
    Except String (List User × User) :=
  match arg with
  | RegisterArg.structPtrArg _ => Except.error "invalid request format"
  | RegisterArg.mapArg m =>
    if m.email == "" || m.password == "" then
      Except.error "email and password are required"
    else
      let user : User :=
        { id := freshId, email := m.email, username := m.username,
          password := hashPasswordModel m.password,
          firstName := m.firstName, lastName := m.lastName,
          role := RoleUser, active := true, createdAt := now, updatedAt := now }
      Except.ok (table ++ [user], stripPassword user)

/-- AuthService.Login: look up the first user with the given email and
active = true (both the GORM branch, Where email and active then First, and
the raw-SQL branch, SELECT ... WHERE email = $1 AND active = $2 via
QueryRowContext, return the first matching row), answer
"invalid credentials" when none matches or the password hash check fails,
and otherwise return a token from generateToken together with the user,
password stripped. -/
def authLogin (cfg : JWTConfigM) (table : List User) (email password : String)
    (tnow : Int) : Except String (SignedToken × User) :=
  match table.find? (fun u => u.email == email && u.active == true) with
  | none => Except.error "invalid credentials"
  | some user =>
    if !checkPasswordHashModel password user.password then
      Except.error "invalid credentials"
    else
      Except.ok
        (generateToken cfg (toString user.id) user.email user.role tnow,
          stripPassword user)

/-- The response AuthController.Register writes: an HTTP status with either
the registered user or an error message. -/
structure RegisterResponse where
  status : Nat
  message : String
  userPayload : Option User
deriving DecidableEq, Repr

/-- AuthController.Register after a successful ShouldBindJSON of a
well-formed body: the service is called with a pointer to the bound
RegisterRequest struct; a service error is answered as 500
"Failed to register user", success as 201 with the user.  Returns the
response and the table afterwards. -/
def registerEndpoint (table : List User) (req : RegisterRequest)
    (freshId now : Nat) : RegisterResponse × List User :=
  match authRegister table (RegisterArg.structPtrArg req) freshId now with
  | Except.error _ =>
    ({ status := 500, message := "Failed to register user", userPayload := none },
      table)
  | Except.ok (t2, u) =>
    ({ status := 201, message := "User registered successfully",
       userPayload := some u }, t2)

/-- The registration body of the spec end-to-end scenario, which satisfies
every binding constraint of RegisterRequest. -/
def specScenarioBody : RegisterRequest :=
  { email := "a@x.com", password := "secret1", firstName := "A",
    lastName := "B", username := "a" }

/-! ## File logger (internal/pkg/logger/file_logger.go) -/

/-- FileLogger state: the DailyRotate config flag, the currentDay field, the
date stamped into the file path of the current writer, and whether fl.mu is held.
Days are calendar day numbers (time.Now().Day()). -/
structure FileLoggerState where
  dailyRotate : Bool
  currentDay : Nat
  writerDay : Nat
  muLocked : Bool
deriving DecidableEq, Repr

/-- FileLogger.initWriter: fl.mu.Lock() at entry (sync.Mutex is not
reentrant, so locking while the mutex is already held blocks forever, which
none models), point the lumberjack writer at the date-stamped path for
today, and release the lock on return. -/
def initWriter (st : FileLoggerState) (today : Nat) : Option FileLoggerState :=
  if st.muLocked then none
  else some { st with writerDay := if st.dailyRotate then today else 0 }

/-- FileLogger.rotateDaily: fl.mu.Lock() at entry (blocking forever when the
mutex is already held), close the current writer, then call initWriter while
still holding the lock; the deferred unlock runs on return. -/
def rotateDaily (st : FileLoggerState) (today : Nat) : Option FileLoggerState :=
  if st.muLocked then none
  else
    match initWriter { st with muLocked := true } today with
    | none => none
    | some st2 => some { st2 with muLocked := false }

/-- Outcome of one FileLogger.log call: either the message was written to
the file stamped with fileDay, leaving the logger in the given state, or the
call blocked forever on fl.mu. -/
inductive LogOutcome where
  | written (st : FileLoggerState) (fileDay : Nat)
  | deadlock
deriving DecidableEq, Repr

/-- FileLogger.log, day-boundary handling: with DailyRotate set the call
takes fl.mu, and if the calendar day changed it updates currentDay and calls
rotateDaily while still holding fl.mu (whose own Lock then blocks forever on
the non-reentrant mutex); otherwise it releases the lock and writes the
message through the current writer. -/
def logCall (st : FileLoggerState) (today : Nat) : LogOutcome :=
  if st.dailyRotate then
    if st.muLocked then LogOutcome.deadlock
    else
      let locked := { st with muLocked := true }
      if today != st.currentDay then
        let locked2 := { locked with currentDay := today }
        match rotateDaily locked2 today with
        | none => LogOutcome.deadlock
        | some st2 => LogOutcome.written { st2 with muLocked := false } st2.writerDay
      else
        LogOutcome.written { locked with muLocked := false } locked.writerDay
  else
    LogOutcome.written st st.writerDay

/-! ## Helper lemmas -/

/-- find? over an append when the first part has no match. -/
theorem find?_append_of_none {α : Type} (p : α → Bool) (l1 l2 : List α)
    (h : l1.find? p = none) : (l1 ++ l2).find? p = l2.find? p := by
  induction l1 with
  | nil => rfl
  | cons a l1 ih =>
    cases hpa : p a with
    | true => simp [List.find?, hpa] at h
    | false =>
      simp only [List.find?, hpa] at h
      simpa [List.find?, hpa] using ih h

/-- find? finds nothing when the predicate holds nowhere. -/
theorem find?_of_forall_false {α : Type} (p : α → Bool) (l : List α)
    (h : ∀ a ∈ l, p a = false) : l.find? p = none := by
  induction l with
  | nil => rfl
  | cons a l ih =>
    have ha := h a (List.mem_cons_self a l)
    simp only [List.find?, ha]
    exact ih (fun b hb => h b (List.mem_cons_of_mem a hb))

/-- Pointwise equal functions map lists equally. -/
theorem map_eq_of_forall_eq {α β : Type} {f g : α → β} :
    ∀ {l : List α}, (∀ a ∈ l, f a = g a) → l.map f = l.map g := by
  intro l
  induction l with
  | nil => intro _; rfl
  | cons a as ih =>
    intro h
    rw [List.map_cons, List.map_cons, h a (List.mem_cons_self a as),
      ih (fun b hb => h b (List.mem_cons_of_mem a hb))]

/-- In a table with pairwise distinct ids, every row carrying the looked-up
id is the row find? returns. -/
theorem find?_unique_match {table : List User} {id : Nat} {u : User}
    (huni : table.Pairwise (fun a b => a.id ≠ b.id))
    (hfind : table.find? (fun v => v.id == id) = some u) :
    ∀ v ∈ table, v.id = id → v = u := by
  induction table with
  | nil => simp at hfind
  | cons w ws ih =>
    rcases List.pairwise_cons.mp huni with ⟨hw, hws⟩
    cases hwid : (w.id == id) with
    | true =>
      have hw_eq : w.id = id := by simpa using hwid
      have hu : u = w := by
        simp [List.find?, hwid] at hfind
        exact hfind.symm
      intro v hv hvid
      rcases List.mem_cons.mp hv with rfl | hvm
      · exact hu.symm
      · exact absurd (hw_eq.trans hvid.symm) (hw v hvm)
    | false =>
      have hfind2 : ws.find? (fun v => v.id == id) = some u := by
        simpa [List.find?, hwid] using hfind
      intro v hv hvid
      rcases List.mem_cons.mp hv with rfl | hvm
      · exfalso
        have hb : (v.id == id) = true := by simpa using hvid
        rw [hb] at hwid
        exact Bool.noConfusion hwid
      · exact ih hws hfind2 v hvm hvid

/-- Membership in the insertion helper. -/
theorem mem_insertByCreatedAtDesc {v u : User} {l : List User} :
    v ∈ insertByCreatedAtDesc u l ↔ v = u ∨ v ∈ l := by
  induction l with
  | nil => simp [insertByCreatedAtDesc]
  | cons w ws ih =>
    by_cases h : u.createdAt < w.createdAt
    · simp only [insertByCreatedAtDesc, if_pos h, List.mem_cons, ih]
      tauto
    · simp only [insertByCreatedAtDesc, if_neg h, List.mem_cons]

/-- Inserting into a list sorted by createdAt descending keeps it sorted. -/
theorem pairwise_insertByCreatedAtDesc (u : User) (l : List User)
    (h : l.Pairwise (fun a b => b.createdAt ≤ a.createdAt)) :
    (insertByCreatedAtDesc u l).Pairwise (fun a b => b.createdAt ≤ a.createdAt) := by
  induction l with
  | nil => simp [insertByCreatedAtDesc]
  | cons w ws ih =>
    rcases List.pairwise_cons.mp h with ⟨hw, hws⟩
    by_cases hc : u.createdAt < w.createdAt
    · rw [insertByCreatedAtDesc, if_pos hc]
      refine List.pairwise_cons.mpr ⟨?_, ih hws⟩
      intro v hv
      rcases mem_insertByCreatedAtDesc.mp hv with rfl | hvm
      · exact Nat.le_of_lt hc
      · exact hw v hvm
    · rw [insertByCreatedAtDesc, if_neg hc]
      refine List.pairwise_cons.mpr ⟨?_, h⟩
      intro v hv
      rcases List.mem_cons.mp hv with rfl | hvm
      · exact Nat.le_of_not_lt hc
      · exact Nat.le_trans (hw v hvm) (Nat.le_of_not_lt hc)

/-- The ORDER BY created_at DESC model always yields a list sorted by
creation time descending. -/
theorem pairwise_orderByCreatedAtDesc (l : List User) :
    (orderByCreatedAtDesc l).Pairwise (fun a b => b.createdAt ≤ a.createdAt) := by
  induction l with
  | nil => simp [orderByCreatedAtDesc]
  | cons a l ih => exact pairwise_insertByCreatedAtDesc a (l.foldr insertByCreatedAtDesc []) ih

/-- Inserting an element at least as new as everything in the list puts it
in front. -/
theorem insertByCreatedAtDesc_eq_cons {u : User} {l : List User}
    (h : ∀ v ∈ l, v.createdAt ≤ u.createdAt) :
    insertByCreatedAtDesc u l = u :: l := by
  cases l with
  | nil => rfl
  | cons w ws =>
    have : ¬ u.createdAt < w.createdAt :=
      Nat.not_lt_of_le (h w (List.mem_cons_self w ws))
    rw [insertByCreatedAtDesc, if_neg this]

/-- Sorting by creation time descending is the identity on a table that is
already stored in that order. -/
theorem orderByCreatedAtDesc_eq_self {l : List User}
    (h : l.Pairwise (fun a b => b.createdAt ≤ a.createdAt)) :
    orderByCreatedAtDesc l = l := by
  induction l with
  | nil => rfl
  | cons a l ih =>
    rcases List.pairwise_cons.mp h with ⟨ha, hl⟩
    have hrec : orderByCreatedAtDesc l = l := ih hl
    show insertByCreatedAtDesc a (l.foldr insertByCreatedAtDesc []) = a :: l
    rw [show l.foldr insertByCreatedAtDesc [] = orderByCreatedAtDesc l from rfl, hrec]
    exact insertByCreatedAtDesc_eq_cons ha

/-! ## C1 -/

/-- A user created earlier (createdAt 1), stored first in the table. -/
def c1UserOld : User :=
  { id := 1, email := "old@x.com", username := "old", password := "",
    firstName := "O", lastName := "L", role := "user", active := true,
    createdAt := 1, updatedAt := 1 }

/-- A user created later (createdAt 2), stored second in the table. -/
def c1UserNew : User :=
  { id := 2, email := "new@x.com", username := "new", password := "",
    firstName := "N", lastName := "W", role := "user", active := true,
    createdAt := 2, updatedAt := 2 }

/-- A create request used to exercise both CreateUser branches. -/
def c1CreateReq : CreateUserReq :=
  { email := "c@x.com", username := "c", firstName := "C", lastName := "U",
    password := "secret1" }

/-- An update request changing only the email field. -/
def c1UpdateReq : UpdateUserReq :=
  { email := "upd@x.com", username := "", firstName := "", lastName := "",
    password := "" }

/-- Claim C1 (counterexample): the GORM and raw-SQL paths are not
observationally identical.  On the two-user table stored oldest-first,
ListUsers with limit 2 offset 0 returns ascending creation order on the GORM
path (which issues no ORDER BY) but descending order on the raw-SQL path;
CreateUser returns a user with zero timestamps on the raw path but with the
insertion timestamps on the GORM path; and UpdateUser returns a user whose
updated_at is back-filled with the update time on the GORM path but left at
its stale fetched value on the raw path. -/
theorem listUsers_paths_counterexample :
    listUsersGormPath [c1UserOld, c1UserNew] 2 0 ≠
      listUsersRawPath [c1UserOld, c1UserNew] 2 0 ∧
    ((createUserGormPath [] c1CreateReq 7 5).toOption.map Prod.snd ≠
      (createUserRawPath [] c1CreateReq 7 5).toOption.map Prod.snd) ∧
    ((updateUserGormPath [c1UserOld] 1 c1UpdateReq 5).toOption.map Prod.snd ≠
      (updateUserRawPath [c1UserOld] 1 c1UpdateReq 5).toOption.map Prod.snd) := by
  decide

/-- Claim C1 (amended): GetUser and DeleteUser produce identical results on
the GORM and raw-SQL paths; CreateUser stores the same row on both (the
returned object differs only in its timestamps, zero on the raw path);
UpdateUser fails on one path exactly when it fails on the other, stores the
same updated rows on both whenever ids are unique, and returns the same
user except that the GORM path back-fills updated_at with the update time
while the raw path leaves it stale; ListUsers orders by creation time
descending only on the raw-SQL path (whose output is always sorted
newest-first), while the GORM path issues no ORDER BY and applies limit and
offset to the table in storage order, so the two ListUsers paths agree when
the stored table is already ordered by creation time descending. -/
theorem userService_paths_equivalence :
    (∀ (table : List User) (id : Nat),
      getUserGormPath table id = getUserRawPath table id) ∧
    (∀ (table : List User) (id : Nat),
      deleteUserGormPath table id = deleteUserRawPath table id) ∧
    (∀ (table : List User) (req : CreateUserReq) (freshId now : Nat),
      (createUserGormPath table req freshId now).map Prod.fst =
        (createUserRawPath table req freshId now).map Prod.fst) ∧
    (∀ (table : List User) (id : Nat) (req : UpdateUserReq) (now : Nat),
      isOkE (updateUserGormPath table id req now) =
        isOkE (updateUserRawPath table id req now)) ∧
    (∀ (table : List User) (id : Nat) (req : UpdateUserReq) (now : Nat),
      table.Pairwise (fun a b => a.id ≠ b.id) →
        (updateUserGormPath table id req now).toOption.map Prod.fst =
          (updateUserRawPath table id req now).toOption.map Prod.fst) ∧
    (∀ (table : List User) (id : Nat) (req : UpdateUserReq) (now : Nat),
      (updateUserGormPath table id req now).toOption.map Prod.snd =
        (updateUserRawPath table id req now).toOption.map
          (fun p => { p.2 with updatedAt := now })) ∧
    (∀ (table : List User) (lim off : Nat),
      (listUsersRawPath table lim off).Pairwise
        (fun a b => b.createdAt ≤ a.createdAt)) ∧
    (∀ (table : List User) (lim off : Nat),
      table.Pairwise (fun a b => b.createdAt ≤ a.createdAt) →
        listUsersGormPath table lim off = listUsersRawPath table lim off) := by
  refine ⟨fun table id => rfl, fun table id => rfl, ?_, ?_, ?_, ?_, ?_, ?_⟩
  · intro table req freshId now
    by_cases h : req.email == ""
    · simp [createUserGormPath, createUserRawPath, h]
    · simp [createUserGormPath, createUserRawPath, h, Except.map]
  · intro table id req now
    cases hfind : table.find? (fun v => v.id == id) with
    | none =>
      simp [updateUserGormPath, updateUserRawPath, getUserGormPath,
        getUserRawPath, hfind, isOkE]
    | some u =>
      simp [updateUserGormPath, updateUserRawPath, getUserGormPath,
        getUserRawPath, hfind, isOkE]
  · intro table id req now huni
    cases hfind : table.find? (fun v => v.id == id) with
    | none =>
      simp [updateUserGormPath, updateUserRawPath, getUserGormPath,
        getUserRawPath, hfind]
    | some u =>
      simp only [updateUserGormPath, updateUserRawPath, getUserGormPath,
        getUserRawPath, hfind, Except.toOption, Option.map]
      refine congrArg some ?_
      apply map_eq_of_forall_eq
      intro v hv
      by_cases hvid : v.id = id
      · have hvu : v = u := find?_unique_match huni hfind v hv hvid
        subst hvu
        have hb : (v.id == id) = true := by simpa using hvid
        simp [hb, rawUpdateRow, applyUpdateFields, stripPassword]
      · have hb : (v.id == id) = false := by simpa using hvid
        simp [hb]
  · intro table id req now
    cases hfind : table.find? (fun v => v.id == id) with
    | none =>
      simp [updateUserGormPath, updateUserRawPath, getUserGormPath,
        getUserRawPath, hfind, Except.toOption]
    | some u =>
      simp only [updateUserGormPath, updateUserRawPath, getUserGormPath,
        getUserRawPath, hfind, Except.toOption, Option.map]
      simp [stripPassword]
  · intro table lim off
    have hsorted := pairwise_orderByCreatedAtDesc table
    have hdrop : ((orderByCreatedAtDesc table).drop off).Pairwise
        (fun a b => b.createdAt ≤ a.createdAt) :=
      List.Pairwise.sublist (List.drop_sublist off _) hsorted
    have htake : (((orderByCreatedAtDesc table).drop off).take lim).Pairwise
        (fun a b => b.createdAt ≤ a.createdAt) :=
      List.Pairwise.sublist (List.take_sublist lim _) hdrop
    unfold listUsersRawPath
    rw [List.pairwise_map]
    exact htake
  · intro table lim off h
    unfold listUsersGormPath listUsersRawPath
    rw [orderByCreatedAtDesc_eq_self h]

/-- Witness for the amended C1 theorem: on a concrete table already stored
newest-first (with distinct ids), the two ListUsers paths coincide, and the
two UpdateUser paths store the same table. -/
theorem userService_paths_equivalence_witness :
    (listUsersGormPath [c1UserNew, c1UserOld] 1 0 =
      listUsersRawPath [c1UserNew, c1UserOld] 1 0) ∧
    ((updateUserGormPath [c1UserNew, c1UserOld] 1 c1UpdateReq 5).toOption.map
        Prod.fst =
      (updateUserRawPath [c1UserNew, c1UserOld] 1 c1UpdateReq 5).toOption.map
        Prod.fst) :=
  ⟨userService_paths_equivalence.2.2.2.2.2.2.2 [c1UserNew, c1UserOld] 1 0
      (by decide),
    userService_paths_equivalence.2.2.2.2.1 [c1UserNew, c1UserOld] 1
      c1UpdateReq 5 (by decide)⟩

/-! ## C2 -/

/-- Claim C2 (refuted, code bug): for every bound registration request — in
particular every well-formed body — POST /api/v1/auth/register responds 500
"Failed to register user" with no user payload and an unchanged table, never
201: the controller passes a pointer to its RegisterRequest struct to
AuthService.Register, whose map type assertion then always fails with
"invalid request format".  The last conjunct evaluates the endpoint at the
exact body of the spec end-to-end scenario. -/
theorem register_endpoint_returns_500 :
    (∀ (table : List User) (req : RegisterRequest) (freshId now : Nat),
      (registerEndpoint table req freshId now).1.status = 500 ∧
      (registerEndpoint table req freshId now).1.message = "Failed to register user" ∧
      (registerEndpoint table req freshId now).1.userPayload = none ∧
      (registerEndpoint table req freshId now).2 = table) ∧
    (registerEndpoint [] specScenarioBody 1 0).1.status ≠ 201 := by
  exact ⟨fun table req freshId now => ⟨rfl, rfl, rfl, rfl⟩, by decide⟩

/-! ## C3 -/

/-- Normalization does not change the UseGorm flag (Postgres). -/
theorem normalizePostgres_useGorm (cfg : PostgresConfig) :
    (normalizePostgresConfig cfg).useGorm = cfg.useGorm := rfl

/-- Normalization does not change the UseGorm flag (MySQL). -/
theorem normalizeMySQL_useGorm (cfg : MySQLConfig) :
    (normalizeMySQLConfig cfg).useGorm = cfg.useGorm := rfl

/-- Claim C3 (confirmed): for both drivers, after a Connect call that
returned nil, GetSQLDB returns a non-absent handle regardless of ORM mode,
and GetGormDB returns a non-absent handle if and only if UseGorm was
requested in the configuration. -/
theorem handles_after_successful_connect :
    (∀ (cfg : PostgresConfig) (env : ConnectEnv),
      (PostgresDriver.connect (newPostgresDriver cfg) env).1 = Except.ok () →
        (PostgresDriver.connect (newPostgresDriver cfg) env).2.getSQLDB.isSome = true ∧
        ((PostgresDriver.connect (newPostgresDriver cfg) env).2.getGormDB.isSome = true ↔
          cfg.useGorm = true)) ∧
    (∀ (cfg : MySQLConfig) (env : ConnectEnv),
      (MySQLDriver.connect (newMySQLDriver cfg) env).1 = Except.ok () →
        (MySQLDriver.connect (newMySQLDriver cfg) env).2.getSQLDB.isSome = true ∧
        ((MySQLDriver.connect (newMySQLDriver cfg) env).2.getGormDB.isSome = true ↔
          cfg.useGorm = true)) := by
  constructor
  · intro cfg env h
    rw [← normalizePostgres_useGorm cfg]
    rcases env with ⟨o, p, g, pl⟩
    cases o with
    | false => simp [PostgresDriver.connect] at h
    | true =>
      cases p with
      | false => simp [PostgresDriver.connect] at h
      | true =>
        cases hug : (normalizePostgresConfig cfg).useGorm with
        | false =>
          simp [PostgresDriver.connect, newPostgresDriver, hug,
            PostgresDriver.getSQLDB, PostgresDriver.getGormDB]
        | true =>
          cases g with
          | false =>
            simp [PostgresDriver.connect, newPostgresDriver, hug] at h
          | true =>
            simp [PostgresDriver.connect, newPostgresDriver, hug,
              PostgresDriver.getSQLDB, PostgresDriver.getGormDB]
  · intro cfg env h
    rw [← normalizeMySQL_useGorm cfg]
    rcases env with ⟨o, p, g, pl⟩
    cases o with
    | false => simp [MySQLDriver.connect] at h
    | true =>
      cases p with
      | false => simp [MySQLDriver.connect] at h
      | true =>
        cases hug : (normalizeMySQLConfig cfg).useGorm with
        | false =>
          simp [MySQLDriver.connect, newMySQLDriver, hug,
            MySQLDriver.getSQLDB, MySQLDriver.getGormDB]
        | true =>
          cases g with
          | false =>
            simp [MySQLDriver.connect, newMySQLDriver, hug] at h
          | true =>
            simp [MySQLDriver.connect, newMySQLDriver, hug,
              MySQLDriver.getSQLDB, MySQLDriver.getGormDB]

/-- A Postgres configuration requesting ORM mode. -/
def c3PgCfg : PostgresConfig :=
  { host := "h", port := "5432", user := "u", password := "pw",
    dbName := "db", sslMode := "", maxOpenConns := 0, maxIdleConns := 0,
    connMaxLifetime := 0, connMaxIdleTime := 0, useGorm := true }

/-- A MySQL configuration not requesting ORM mode. -/
def c3MyCfg : MySQLConfig :=
  { host := "h", port := "3306", user := "u", password := "pw",
    dbName := "db", charset := "", parseTime := true, loc := "",
    maxOpenConns := 0, maxIdleConns := 0, connMaxLifetime := 0,
    connMaxIdleTime := 0, useGorm := false }

/-- An environment in which every connection step succeeds. -/
def c3EnvOk : ConnectEnv :=
  { openOk := true, pingOk := true, gormOk := true, pingLaterOk := true }

/-- Witness for C3: on a concrete successful Postgres connect with ORM mode
both handles are present, and on a concrete successful MySQL connect without
ORM mode the SQL handle is present while the GORM handle is absent. -/
theorem handles_after_successful_connect_witness :
    ((PostgresDriver.connect (newPostgresDriver c3PgCfg) c3EnvOk).2.getSQLDB.isSome = true ∧
      ((PostgresDriver.connect (newPostgresDriver c3PgCfg) c3EnvOk).2.getGormDB.isSome = true ↔
        c3PgCfg.useGorm = true)) ∧
    ((MySQLDriver.connect (newMySQLDriver c3MyCfg) c3EnvOk).2.getSQLDB.isSome = true ∧
      ((MySQLDriver.connect (newMySQLDriver c3MyCfg) c3EnvOk).2.getGormDB.isSome = true ↔
        c3MyCfg.useGorm = true)) :=
  ⟨handles_after_successful_connect.1 c3PgCfg c3EnvOk rfl,
    handles_after_successful_connect.2 c3MyCfg c3EnvOk rfl⟩

/-! ## C4 -/

/-- A Postgres configuration with ORM mode for the failure scenario. -/
def c4PgCfg : PostgresConfig :=
  { host := "h", port := "5432", user := "u", password := "pw",
    dbName := "db", sslMode := "", maxOpenConns := 0, maxIdleConns := 0,
    connMaxLifetime := 0, connMaxIdleTime := 0, useGorm := true }

/-- An environment in which open and ping succeed but gorm.Open fails, and
any later ping would succeed. -/
def c4EnvGormFails : ConnectEnv :=
  { openOk := true, pingOk := true, gormOk := false, pingLaterOk := true }

/-- Claim C4 (counterexample): a Connect that fails at the ORM-init step
does not leave the driver behaving as never-connected: Connect returns an
error, yet a subsequent Ping succeeds (it pings the retained live pool
instead of failing with the unconnected-driver error) and GetSQLDB exposes a
non-absent handle. -/
theorem connect_failure_counterexample :
    isOkE (PostgresDriver.connect (newPostgresDriver c4PgCfg) c4EnvGormFails).1 = false ∧
    (PostgresDriver.connect (newPostgresDriver c4PgCfg) c4EnvGormFails).2.ping true =
      Except.ok () ∧
    (PostgresDriver.connect (newPostgresDriver c4PgCfg) c4EnvGormFails).2.getSQLDB.isSome =
      true :=
  ⟨rfl, rfl, rfl⟩

/-- Claim C4 (amended): for both drivers, a Connect that fails at any step
returns a wrapped error; when the open step itself failed the driver is left
unconnected (nil handle, every subsequent Ping fails with the
unconnected-driver error), but when open succeeded and a later step (ping or
ORM init) failed, the opened pool stays stored and exposed through GetSQLDB,
and a subsequent Ping pings that pool instead of failing as unconnected. -/
theorem connect_failure_state :
    (∀ (cfg : PostgresConfig) (env : ConnectEnv),
      isOkE (PostgresDriver.connect (newPostgresDriver cfg) env).1 = false →
        (env.openOk = false →
          (PostgresDriver.connect (newPostgresDriver cfg) env).2.db = none ∧
          ∀ b, (PostgresDriver.connect (newPostgresDriver cfg) env).2.ping b =
            Except.error "database connection is not established") ∧
        (env.openOk = true →
          (PostgresDriver.connect (newPostgresDriver cfg) env).2.getSQLDB.isSome = true ∧
          ∀ b, (PostgresDriver.connect (newPostgresDriver cfg) env).2.ping b =
            (if b then Except.ok () else Except.error "ping failed"))) ∧
    (∀ (cfg : MySQLConfig) (env : ConnectEnv),
      isOkE (MySQLDriver.connect (newMySQLDriver cfg) env).1 = false →
        (env.openOk = false →
          (MySQLDriver.connect (newMySQLDriver cfg) env).2.db = none ∧
          ∀ b, (MySQLDriver.connect (newMySQLDriver cfg) env).2.ping b =
            Except.error "database connection is not established") ∧
        (env.openOk = true →
          (MySQLDriver.connect (newMySQLDriver cfg) env).2.getSQLDB.isSome = true ∧
          ∀ b, (MySQLDriver.connect (newMySQLDriver cfg) env).2.ping b =
            (if b then Except.ok () else Except.error "ping failed"))) := by
  constructor
  · intro cfg env hfail
    rcases env with ⟨o, p, g, pl⟩
    cases o with
    | false =>
      refine ⟨fun _ => ⟨rfl, fun b => rfl⟩, fun hcontra => by simp at hcontra⟩
    | true =>
      refine ⟨fun hcontra => by simp at hcontra, fun _ => ?_⟩
      cases p with
      | false =>
        constructor
        · rfl
        · intro b
          cases b <;> rfl
      | true =>
        cases hug : (normalizePostgresConfig cfg).useGorm with
        | false =>
          exfalso
          simp [PostgresDriver.connect, newPostgresDriver, hug, isOkE] at hfail
        | true =>
          cases g with
          | true =>
            exfalso
            simp [PostgresDriver.connect, newPostgresDriver, hug, isOkE] at hfail
          | false =>
            constructor
            · simp [PostgresDriver.connect, newPostgresDriver, hug,
                PostgresDriver.getSQLDB]
            · intro b
              cases b <;>
                simp [PostgresDriver.connect, newPostgresDriver, hug,
                  PostgresDriver.ping]
  · intro cfg env hfail
    rcases env with ⟨o, p, g, pl⟩
    cases o with
    | false =>
      refine ⟨fun _ => ⟨rfl, fun b => rfl⟩, fun hcontra => by simp at hcontra⟩
    | true =>
      refine ⟨fun hcontra => by simp at hcontra, fun _ => ?_⟩
      cases p with
      | false =>
        constructor
        · rfl
        · intro b
          cases b <;> rfl
      | true =>
        cases hug : (normalizeMySQLConfig cfg).useGorm with
        | false =>
          exfalso
          simp [MySQLDriver.connect, newMySQLDriver, hug, isOkE] at hfail
        | true =>
          cases g with
          | true =>
            exfalso
            simp [MySQLDriver.connect, newMySQLDriver, hug, isOkE] at hfail
          | false =>
            constructor
            · simp [MySQLDriver.connect, newMySQLDriver, hug,
                MySQLDriver.getSQLDB]
            · intro b
              cases b <;>
                simp [MySQLDriver.connect, newMySQLDriver, hug,
                  MySQLDriver.ping]

/-- Witness for the amended C4 theorem: at the concrete gorm-failure
scenario, Connect fails while the pool handle remains exposed. -/
theorem connect_failure_state_witness :
    (PostgresDriver.connect (newPostgresDriver c4PgCfg) c4EnvGormFails).2.getSQLDB.isSome =
      true :=
  ((connect_failure_state.1 c4PgCfg c4EnvGormFails rfl).2 rfl).1

/-! ## C5 -/

/-- The user record AuthService.Register inserts for a map-shaped request:
fresh id, hashed password, role user, active, current timestamps. -/
def registeredUser (m : RegisterMap) (freshId now : Nat) : User :=
  { id := freshId, email := m.email, username := m.username,
    password := hashPasswordModel m.password, firstName := m.firstName,
    lastName := m.lastName, role := RoleUser, active := true,
    createdAt := now, updatedAt := now }

/-- Claim C5 (confirmed): for every email and password accepted by the
service-layer Register (non-empty email and password, modulo the table
holding no user with that email yet, which the unique email column
guarantees), registering and then immediately logging in with the same
email and password succeeds, and the embedded claims of the issued token carry
the same email and the role user. -/
theorem register_then_login_roundtrip (cfg : JWTConfigM) (table : List User)
    (m : RegisterMap) (freshId now : Nat) (tnow : Int)
    (hEmail : m.email ≠ "") (hPwd : m.password ≠ "")
    (hFresh : ∀ u ∈ table, u.email ≠ m.email) :
    ∃ t2 newUser tok retUser,
      authRegister table (RegisterArg.mapArg m) freshId now =
        Except.ok (t2, newUser) ∧
      authLogin cfg t2 m.email m.password tnow = Except.ok (tok, retUser) ∧
      tok.claims.email = m.email ∧ tok.claims.role = "user" := by
  have hbe : (m.email == "") = false := by simpa using hEmail
  have hbp : (m.password == "") = false := by simpa using hPwd
  refine ⟨table ++ [registeredUser m freshId now],
    stripPassword (registeredUser m freshId now),
    generateToken cfg (toString (registeredUser m freshId now).id)
      (registeredUser m freshId now).email
      (registeredUser m freshId now).role tnow,
    stripPassword (registeredUser m freshId now), ?_, ?_, ?_, ?_⟩
  · simp [authRegister, hbe, hbp, registeredUser]
  · have hnone : List.find? (fun u => u.email == m.email && u.active)
        table = none := by
      refine find?_of_forall_false _ _ (fun a ha => ?_)
      have : (a.email == m.email) = false := by simpa using hFresh a ha
      simp [this]
    simp [authLogin, hnone, checkPasswordHashModel, hashPasswordModel,
      registeredUser]
  · rfl
  · rfl

/-- The register-map body of the spec end-to-end scenario. -/
def c5Map : RegisterMap :=
  { email := "a@x.com", password := "secret1", firstName := "A",
    lastName := "B", username := "a" }

/-- A concrete JWT configuration for the round-trip witness. -/
def c5Cfg : JWTConfigM :=
  { secret := "config-secret", expiration := 3600, issuer := "backoffice" }

/-- Witness for C5: the round trip succeeds on the concrete scenario body
over an empty table. -/
theorem register_then_login_roundtrip_witness :
    ∃ t2 newUser tok retUser,
      authRegister [] (RegisterArg.mapArg c5Map) 1 0 = Except.ok (t2, newUser) ∧
      authLogin c5Cfg t2 c5Map.email c5Map.password 0 =
        Except.ok (tok, retUser) ∧
      tok.claims.email = c5Map.email ∧ tok.claims.role = "user" :=
  register_then_login_roundtrip c5Cfg [] c5Map 1 0 0 (by decide) (by decide)
    (by simp)

/-! ## C6 -/

/-- The errs accumulator of CloseAll is empty exactly when every driver
closed without error. -/
theorem closeAllErrors_eq_nil (ds : List (String × DriverSpec)) :
    closeAllErrors ds = [] ↔ ∀ p ∈ ds, p.2.closeOk = true := by
  induction ds with
  | nil => simp [closeAllErrors]
  | cons p ps ih =>
    rw [List.forall_mem_cons]
    cases hp : p.2.closeOk with
    | true =>
      have hstep : closeAllErrors (p :: ps) = closeAllErrors ps := by
        simp [closeAllErrors, List.filterMap_cons, hp]
      rw [hstep, ih]
      simp [hp]
    | false =>
      have hstep : closeAllErrors (p :: ps) =
          ("failed to close driver " ++ p.1 ++ ": " ++ p.2.closeErrMsg) ::
            closeAllErrors ps := by
        simp [closeAllErrors, List.filterMap_cons, hp]
      rw [hstep]
      simp [hp]

/-- Claim C6 (confirmed): ConnectAll stops at the first driver whose Connect
fails and returns that wrapped error immediately, leaving the failing driver
and all drivers after it unconnected while the earlier ones stay connected
(and succeeds connecting everything when no driver fails); CloseAll attempts
Close on every registered driver, collecting one wrapped error per failure,
and returns nil exactly when no close failed and a single aggregated error
otherwise. -/
theorem connectAll_closeAll_policies :
    (∀ (pre : List (String × DriverSpec)) (n : String) (d : DriverSpec)
        (post : List (String × DriverSpec)),
      (∀ p ∈ pre, p.2.connectOk = true) → d.connectOk = false →
        connectAllGo (pre ++ (n, d) :: post) =
          (some ("failed to connect driver " ++ n ++ ": " ++ d.connectErrMsg),
            pre.map (fun p => (p.1, true)) ++
              (n, false) :: post.map (fun p => (p.1, false)))) ∧
    (∀ ds : List (String × DriverSpec),
      (∀ p ∈ ds, p.2.connectOk = true) →
        connectAllGo ds = (none, ds.map (fun p => (p.1, true)))) ∧
    (∀ ds : List (String × DriverSpec),
      closeAllGo ds = none ↔ ∀ p ∈ ds, p.2.closeOk = true) ∧
    (∀ ds : List (String × DriverSpec),
      closeAllErrors ds = (ds.filter (fun p => !p.2.closeOk)).map
        (fun p => "failed to close driver " ++ p.1 ++ ": " ++ p.2.closeErrMsg)) := by
  refine ⟨?_, ?_, ?_, ?_⟩
  · intro pre n d post hpre hd
    induction pre with
    | nil => simp [connectAllGo, hd]
    | cons q qs ih =>
      obtain ⟨qn, qd⟩ := q
      have hq : qd.connectOk = true := hpre (qn, qd) (List.mem_cons_self _ qs)
      have ihq := ih (fun p hp => hpre p (List.mem_cons_of_mem _ hp))
      rw [List.cons_append]
      simp only [connectAllGo]
      rw [if_pos hq, ihq]
      simp
  · intro ds h
    induction ds with
    | nil => rfl
    | cons q qs ih =>
      obtain ⟨qn, qd⟩ := q
      have hq : qd.connectOk = true := h (qn, qd) (List.mem_cons_self _ qs)
      have ihq := ih (fun p hp => h p (List.mem_cons_of_mem _ hp))
      simp only [connectAllGo]
      rw [if_pos hq, ihq]
      simp
  · intro ds
    unfold closeAllGo
    rcases he : closeAllErrors ds with _ | ⟨e, es⟩
    · simpa [he] using (closeAllErrors_eq_nil ds).mp he
    · have : ¬ closeAllErrors ds = [] := by simp [he]
      simp only [he, List.isEmpty_cons, if_neg]
      constructor
      · intro hcontra
        exact absurd hcontra (by simp)
      · intro hall
        exact absurd ((closeAllErrors_eq_nil ds).mpr hall) this
  · intro ds
    induction ds with
    | nil => rfl
    | cons q qs ih =>
      cases hq : q.2.closeOk with
      | true =>
        have h1 : closeAllErrors (q :: qs) = closeAllErrors qs := by
          simp [closeAllErrors, List.filterMap_cons, hq]
        have h2 : (q :: qs).filter (fun p => !p.2.closeOk) =
            qs.filter (fun p => !p.2.closeOk) := by
          simp [List.filter_cons, hq]
        rw [h1, h2, ih]
      | false =>
        have h1 : closeAllErrors (q :: qs) =
            ("failed to close driver " ++ q.1 ++ ": " ++ q.2.closeErrMsg) ::
              closeAllErrors qs := by
          simp [closeAllErrors, List.filterMap_cons, hq]
        have h2 : (q :: qs).filter (fun p => !p.2.closeOk) =
            q :: qs.filter (fun p => !p.2.closeOk) := by
          simp [List.filter_cons, hq]
        rw [h1, h2, List.map_cons, ih]

/-- A driver whose Connect and Close both succeed and that is healthy. -/
def c6Ok : DriverSpec :=
  { connectOk := true, connectErrMsg := "", closeOk := true,
    closeErrMsg := "", healthErr := none }

/-- A driver whose Connect and Close both fail. -/
def c6Bad : DriverSpec :=
  { connectOk := false, connectErrMsg := "dial refused", closeOk := false,
    closeErrMsg := "already closed", healthErr := some "down" }

/-- Witness for C6: on a concrete three-driver manager whose second driver
fails to connect, ConnectAll returns the wrapped error of the second driver with
the first driver connected and the rest unconnected, and CloseAll over a
healthy manager returns nil. -/
theorem connectAll_closeAll_policies_witness :
    connectAllGo [("primary", c6Ok), ("secondary", c6Bad), ("third", c6Ok)] =
      (some "failed to connect driver secondary: dial refused",
        [("primary", true), ("secondary", false), ("third", false)]) ∧
    closeAllGo [("primary", c6Ok)] = none := by
  constructor
  · have h := connectAll_closeAll_policies.1 [("primary", c6Ok)] "secondary"
      c6Bad [("third", c6Ok)]
      (by intro p hp; rw [List.mem_singleton] at hp; subst hp; rfl) rfl
    exact h.trans (by decide)
  · exact (connectAll_closeAll_policies.2.2.1 [("primary", c6Ok)]).mpr
      (by intro p hp; rw [List.mem_singleton] at hp; subst hp; rfl)

/-! ## C7 -/

/-- A daily-rotating file logger whose last write was on day 9, currently
idle (mutex free). -/
def c7State : FileLoggerState :=
  { dailyRotate := true, currentDay := 9, writerDay := 9, muLocked := false }

/-- Claim C7 (refuted, code bug): when the calendar day of the last write
differs from the current day, a log call does not rotate once and write the
message to the file of the new day — it deadlocks, because FileLogger.log calls
rotateDaily while already holding fl.mu and Go sync.Mutex is not reentrant
(rotateDaily locks fl.mu again, and initWriter locks it a third time), so
the message is never written at all.  A same-day call, by contrast, writes
normally to the file of the current day. -/
theorem log_day_boundary_deadlocks :
    logCall c7State 10 = LogOutcome.deadlock ∧
    logCall c7State 9 = LogOutcome.written c7State 9 := by
  decide

/-! ## C8 -/

/-- Claim C8 (confirmed): the ListUsers controller defaults a missing page
to 1 and a missing limit to 10, clamps page below 1 to 1, limit below 1 to
10 and limit above 100 to 100, leaves in-range values unchanged, and always
passes offset = (page - 1) * limit to the service. -/
theorem listUsersParams_clamping :
    (∀ lq, (listUsersParams none lq).1 = 1) ∧
    (∀ pq, (listUsersParams pq none).2.1 = 10) ∧
    (∀ (p : Int) (lq : Option Int), p < 1 →
      (listUsersParams (some p) lq).1 = 1) ∧
    (∀ (p : Int) (lq : Option Int), 1 ≤ p →
      (listUsersParams (some p) lq).1 = p) ∧
    (∀ (pq : Option Int) (l : Int), l < 1 →
      (listUsersParams pq (some l)).2.1 = 10) ∧
    (∀ (pq : Option Int) (l : Int), 1 ≤ l → l ≤ 100 →
      (listUsersParams pq (some l)).2.1 = l) ∧
    (∀ (pq : Option Int) (l : Int), 100 < l →
      (listUsersParams pq (some l)).2.1 = 100) ∧
    (∀ pq lq, (listUsersParams pq lq).2.2 =
      ((listUsersParams pq lq).1 - 1) * (listUsersParams pq lq).2.1) := by
  refine ⟨?_, ?_, ?_, ?_, ?_, ?_, ?_, ?_⟩
  · intro lq
    simp only [listUsersParams, Option.getD_none]
    norm_num
  · intro pq
    simp only [listUsersParams, Option.getD_none]
    norm_num
  · intro p lq hp
    simp only [listUsersParams, Option.getD_some]
    split_ifs
    omega
  · intro p lq hp
    simp only [listUsersParams, Option.getD_some]
    split_ifs <;> omega
  · intro pq l hl
    simp only [listUsersParams, Option.getD_some]
    split_ifs <;> omega
  · intro pq l h1 h2
    simp only [listUsersParams, Option.getD_some]
    split_ifs <;> omega
  · intro pq l hl
    simp only [listUsersParams, Option.getD_some]
    split_ifs <;> omega
  · intro pq lq
    rfl

/-- Witness for C8: limit 150 at page 2 is clamped to 100, and page 0 with
limit 0 falls back to page 1 and limit 10. -/
theorem listUsersParams_clamping_witness :
    (listUsersParams (some 2) (some 150)).2.1 = 100 ∧
    (listUsersParams (some 0) (some 0)).1 = 1 ∧
    (listUsersParams (some 0) (some 0)).2.1 = 10 :=
  ⟨listUsersParams_clamping.2.2.2.2.2.2.1 (some 2) 150 (by decide),
    listUsersParams_clamping.2.2.1 0 (some 0) (by decide),
    listUsersParams_clamping.2.2.2.2.1 (some 0) 0 (by decide)⟩

/-! ## C9 -/

/-- Claim C9 (confirmed): RefreshToken verifies the presented token with
utils.VerifyToken, whose key is the hard-coded package-level
"supersecretkey", not the configured secret used by generateToken for
signing; hence a not-yet-expired token issued by Login or RefreshToken
(both sign via generateToken) can itself be refreshed if and only if the
configured JWT secret equals "supersecretkey". -/
theorem refreshToken_verifies_with_package_key (cfg : JWTConfigM)
    (userId email role : String) (now later : Int)
    (hNotExpired : later < now + cfg.expiration) :
    (isOkE (refreshTokenService cfg
        (generateToken cfg userId email role now) later) = true ↔
      cfg.secret = jwtKey) ∧
    ∀ t : SignedToken,
      isOkE (refreshTokenService cfg t later) =
        isOkE (verifyTokenUtils later t) := by
  constructor
  · by_cases h : cfg.secret = jwtKey
    · simp [refreshTokenService, verifyTokenUtils, verifyWithKey,
        generateToken, isOkE, h, hNotExpired]
    · have hb : (cfg.secret == jwtKey) = false := by simpa using h
      simp [refreshTokenService, verifyTokenUtils, verifyWithKey,
        generateToken, isOkE, hb, h]
  · intro t
    cases hv : verifyTokenUtils later t with
    | error e => simp [refreshTokenService, isOkE, hv]
    | ok c => simp [refreshTokenService, isOkE, hv]

/-- A configuration whose secret happens to equal the package-level key. -/
def c9Cfg : JWTConfigM :=
  { secret := "supersecretkey", expiration := 3600, issuer := "backoffice" }

/-- Witness for C9: with the concrete matching configuration, a token just
issued by generateToken is refreshable, i.e. the iff is realized. -/
theorem refreshToken_verifies_with_package_key_witness :
    isOkE (refreshTokenService c9Cfg
        (generateToken c9Cfg "1" "a@x.com" "user" 0) 10) = true ↔
      c9Cfg.secret = jwtKey :=
  (refreshToken_verifies_with_package_key c9Cfg "1" "a@x.com" "user" 0 10
    (by decide)).1

/-! ## C10 -/

/-- A lookup over an association list none of whose keys is the requested
one yields nothing. -/
theorem lookup_eq_none_of_forall {β : Type} (l : List (String × β)) (k : String)
    (h : ∀ p ∈ l, p.1 ≠ k) : l.lookup k = none := by
  induction l with
  | nil => rfl
  | cons p ps ih =>
    obtain ⟨a, b⟩ := p
    have hp : a ≠ k := h (a, b) (List.mem_cons_self _ ps)
    have hb : (k == a) = false := by
      simp only [beq_eq_false_iff_ne]
      exact fun e => hp e.symm
    simp only [List.lookup, hb]
    exact ih (fun q hq => h q (List.mem_cons_of_mem _ hq))

/-- Claim C10 (confirmed): when no driver named primary is registered,
Manager.Health returns a map with no primary entry, and the nil zero value
of the missing map index makes UserService.Health and AuthService.Health
report healthy (nil error). -/
theorem health_without_primary (ds : List (String × DriverSpec))
    (h : ∀ p ∈ ds, p.1 ≠ "primary") :
    (managerHealth ds).lookup "primary" = none ∧
    userServiceHealth ds = none ∧ authServiceHealth ds = none := by
  have hkeys : ∀ q ∈ managerHealth ds, q.1 ≠ "primary" := by
    intro q hq
    rcases List.mem_map.mp hq with ⟨p, hp, rfl⟩
    exact h p hp
  have hlook := lookup_eq_none_of_forall (managerHealth ds) "primary" hkeys
  exact ⟨hlook, by simp [userServiceHealth, healthMapIndex, hlook],
    by simp [authServiceHealth, healthMapIndex, hlook]⟩

/-- A manager holding one unhealthy driver registered under a name other
than primary. -/
def c10Specs : List (String × DriverSpec) :=
  [("secondary",
    { connectOk := true, connectErrMsg := "", closeOk := true,
      closeErrMsg := "", healthErr := some "connection refused" })]

/-- Witness for C10: with only an unhealthy secondary driver registered,
both services still report healthy. -/
theorem health_without_primary_witness :
    (managerHealth c10Specs).lookup "primary" = none ∧
    userServiceHealth c10Specs = none ∧ authServiceHealth c10Specs = none :=
  health_without_primary c10Specs
    (by intro p hp; simp only [c10Specs, List.mem_singleton] at hp; subst hp; decide)

end Backoffice
